import Mathlib

/-!
Verification of the platform_master collision and player-physics core.

Shallow embedding of `src/main.py`: the `AABBCollision` geometry functions,
the `Player` per-tick update, and the `PhysicsEngine` update and collision
pass.  Numbers are modelled as integers (`ℤ`): the source `Bounds` type
alias is `Tuple[Tuple[int, int], Tuple[int, int]]`, every constant in the
program is an integer, and every arithmetic step performed on positions and
velocities adds or subtracts integers, so all reachable values are exactly
integral.  The single non-integer literal, the jump guard
`self.velocity[1] < 0.1`, is embedded as the exactly equivalent integer
comparison `10 * vy < 1` (for any rational `vy`, `vy < 1/10 ↔ 10 * vy < 1`,
and on the integral reachable values this also agrees with the float
comparison, since the float nearest `0.1` lies strictly between `0` and `1`).
-/

/-- Source type `Bounds`: pair of closed intervals `((xMin, xMax), (yMin, yMax))`,
mirroring `Bounds = Tuple[Tuple[int, int], Tuple[int, int]]`. -/
abbrev Bounds : Type := (ℤ × ℤ) × (ℤ × ℤ)

/-- Embeds `AABBCollision._AABB_is_colliding_1d(x1, x2)`:
`x1[0] <= x2[1] and x2[0] <= x1[1]`. -/
def AABB_is_colliding_1d (x1 x2 : ℤ × ℤ) : Bool :=
  decide (x1.1 ≤ x2.2 ∧ x2.1 ≤ x1.2)

/-- Embeds `AABBCollision.AABB_is_colliding(bounds1, bounds2)`: the 1-d test on the
x-axis and on the y-axis. -/
def AABB_is_colliding (bounds1 bounds2 : Bounds) : Bool :=
  AABB_is_colliding_1d bounds1.1 bounds2.1 && AABB_is_colliding_1d bounds1.2 bounds2.2

/-- Embeds `AABBCollision._AABB_vector_1d(x1, x2)`:
`x2[0] - x1[1] if abs(x1[1] - x2[0]) < abs(x2[1] - x1[0]) else x2[1] - x1[0]`. -/
def AABB_vector_1d (x1 x2 : ℤ × ℤ) : ℤ :=
  if |x1.2 - x2.1| < |x2.2 - x1.1| then x2.1 - x1.2 else x2.2 - x1.1

/-- Embeds `AABBCollision.AABB_vector_compact(bounds1, bounds2)` literally:
the inline collision test of line 19, the inline per-axis candidates of
lines 20–21 (the conditional-expression assignments to `x` and `y`), then
the axis-selection step, with the early `return 0, 0` of the `else` branch. -/
def AABB_vector_compact (bounds1 bounds2 : Bounds) : ℤ × ℤ :=
  if (bounds1.1.1 ≤ bounds2.1.2 ∧ bounds2.1.1 ≤ bounds1.1.2) ∧
      (bounds1.2.1 ≤ bounds2.2.2 ∧ bounds2.2.1 ≤ bounds1.2.2) then
    let x : ℤ :=
      if |bounds1.1.2 - bounds2.1.1| < |bounds2.1.2 - bounds1.1.1| then
        bounds2.1.1 - bounds1.1.2
      else bounds2.1.2 - bounds1.1.1
    let y : ℤ :=
      if |bounds1.2.2 - bounds2.2.1| < |bounds2.2.2 - bounds1.2.1| then
        bounds2.2.1 - bounds1.2.2
      else bounds2.2.2 - bounds1.2.1
    -- "Select shortest path if colliding on both axes"
    if |x| < |y| then (x, 0) else (0, y)
  else (0, 0)

/-- Embeds `AABBCollision.AABB_vector(bounds1, bounds2)`: the long version built
from `AABB_is_colliding` and `_AABB_vector_1d`, whose final axis-selection
step also runs in the non-colliding case (where `res = [0.0, 0.0]`). -/
def AABB_vector (bounds1 bounds2 : Bounds) : ℤ × ℤ :=
  let res : ℤ × ℤ :=
    if AABB_is_colliding bounds1 bounds2 then
      (AABB_vector_1d bounds1.1 bounds2.1, AABB_vector_1d bounds1.2 bounds2.2)
    else (0, 0)
  if |res.1| < |res.2| then (res.1, 0) else (0, res.2)

/-- The x-axis candidate push computed on line 20 of
`AABB_vector_compact`, named so the tie-break property can be stated. -/
def AABB_candX (bounds1 bounds2 : Bounds) : ℤ :=
  if |bounds1.1.2 - bounds2.1.1| < |bounds2.1.2 - bounds1.1.1| then
    bounds2.1.1 - bounds1.1.2
  else bounds2.1.2 - bounds1.1.1

/-- The y-axis candidate push computed on line 21 of `AABB_vector_compact`. -/
def AABB_candY (bounds1 bounds2 : Bounds) : ℤ :=
  if |bounds1.2.2 - bounds2.2.1| < |bounds2.2.2 - bounds1.2.1| then
    bounds2.2.1 - bounds1.2.2
  else bounds2.2.2 - bounds1.2.1

/-- Translating bounds, as `PhysicsObject.move` acts on `bounds()`:
moving a body by `(dx, dy)` shifts both interval endpoints on each axis. -/
def translateBounds (b : Bounds) (v : ℤ × ℤ) : Bounds :=
  ((b.1.1 + v.1, b.1.2 + v.1), (b.2.1 + v.2, b.2.2 + v.2))

/-- Strict (open-interval) overlap of two bounds: the rectangle
interiors intersect.  This is the notion of "overlap" that the separation
vector actually eliminates; the code `AABB_is_colliding` uses closed
intervals and still reports `true` on touching edges. -/
def AABB_strict_overlap (b1 b2 : Bounds) : Bool :=
  decide (b1.1.1 < b2.1.2 ∧ b2.1.1 < b1.1.2 ∧ b1.2.1 < b2.2.2 ∧ b2.2.1 < b1.2.2)

/-- Helper: `AABB_vector_compact` rewritten with the named candidates; equal by
unfolding the two `let` bindings. -/
theorem AABB_vector_compact_eq (b1 b2 : Bounds) :
    AABB_vector_compact b1 b2 =
      if (b1.1.1 ≤ b2.1.2 ∧ b2.1.1 ≤ b1.1.2) ∧ (b1.2.1 ≤ b2.2.2 ∧ b2.2.1 ≤ b1.2.2) then
        if |AABB_candX b1 b2| < |AABB_candY b1 b2| then (AABB_candX b1 b2, 0)
        else (0, AABB_candY b1 b2)
      else (0, 0) := rfl

/-! Player physics (`Player.__init__`, `Player.update`) -/

/-- The per-frame input snapshot consumed by `Player.update`:
`keys[pygame.K_SPACE]`, `keys[pygame.K_LEFT]`, `keys[pygame.K_RIGHT]`. -/
structure PInput where
  space : Bool
  left : Bool
  right : Bool
deriving DecidableEq

/-- The mutable state of a `Player` that `Player.update` touches:
position `(x, y)` and `velocity = [vx, vy]`. -/
structure PlayerPhys where
  x : ℤ
  y : ℤ
  vx : ℤ
  vy : ℤ
deriving DecidableEq

/-- Embeds lines 153–155: `if keys[K_SPACE] and self.velocity[1] < 0.1:`
(`10 * vy < 1` is the exact integer form of `vy < 0.1`), then
`if self.velocity[1] < 0: self.velocity[1] = 0` and
`self.velocity[1] += 30.0`. -/
def playerJump (k : PInput) (s : PlayerPhys) : PlayerPhys :=
  if k.space ∧ 10 * s.vy < 1 then
    { s with vy := (if s.vy < 0 then 0 else s.vy) + 30 }
  else s

/-- Embeds lines 156–159: the left guard and decrement, then the right guard and
increment, the right guard reading the velocity already updated by the
left branch. -/
def playerHoriz (k : PInput) (s : PlayerPhys) : PlayerPhys :=
  let s1 := if k.left ∧ s.vx > -10 then { s with vx := s.vx - 3 } else s
  if k.right ∧ s1.vx < 10 then { s1 with vx := s1.vx + 3 } else s1

/-- Embeds lines 161–167, "Dummy gravity": `t = 1` is a fresh local on every call,
so the decrement applied is always `3 * 1 = 3`; the `t += 1` and the
`else: t = 1` reset act on a variable that dies when `update` returns. -/
def playerGravity (s : PlayerPhys) : PlayerPhys :=
  if s.vy > -15 then { s with vy := s.vy - 3 * 1 } else s

/-- Embeds lines 169–170: `self.x += self.velocity[0]; self.y -= self.velocity[1]`. -/
def playerIntegrate (s : PlayerPhys) : PlayerPhys :=
  { s with x := s.x + s.vx, y := s.y - s.vy }

/-- Embeds `Player.update`: jump input, horizontal input, gravity, integration,
in that order. -/
def playerUpdate (k : PInput) (s : PlayerPhys) : PlayerPhys :=
  playerIntegrate (playerGravity (playerHoriz k (playerJump k s)))

/-- A freshly constructed `Player` at `(x, y)`: `self.velocity = [0.0, 0.0]`. -/
def playerInit (x y : ℤ) : PlayerPhys :=
  { x := x, y := y, vx := 0, vy := 0 }

/-- Running `Player.update` over a finite sequence of per-tick inputs. -/
def playerRun (ks : List PInput) (s : PlayerPhys) : PlayerPhys :=
  ks.foldl (fun s k => playerUpdate k s) s

/-! Bodies and the physics engine
(`PhysicsObject`, `Platform`, `Player`, `PhysicsEngine`) -/

/-- Embeds `PhysicsObject.Tag`. -/
inductive Tag where
  | STATIC : Tag
  | DYNAMIC : Tag
  | PLAYER : Tag
deriving DecidableEq

/-- Which concrete `PhysicsObject` subclass a body is: a `Platform`, or a
`Player` carrying its velocity.  These are the only two subclasses the
program constructs. -/
inductive BodyKind where
  | platformK : BodyKind
  | playerK (vx vy : ℤ) : BodyKind
deriving DecidableEq

/-- A registered `PhysicsObject`: identity, position, size, and subclass.
The `tags` list is determined by the constructing subclass, see
`Body.tags`. -/
structure Body where
  id : ℕ
  x : ℤ
  y : ℤ
  width : ℤ
  height : ℤ
  kind : BodyKind
deriving DecidableEq

/-- The tag list assigned by the subclass constructors:
`Platform.__init__` passes `[STATIC]`, `Player.__init__` passes
`[DYNAMIC, PLAYER]`. -/
def Body.tags (b : Body) : List Tag :=
  match b.kind with
  | .platformK => [Tag.STATIC]
  | .playerK _ _ => [Tag.DYNAMIC, Tag.PLAYER]

/-- The membership test `PhysicsObject.Tag.DYNAMIC in obj.tags` used by
`PhysicsEngine._collision_update`. -/
def Body.isDynamic (b : Body) : Bool :=
  decide (Tag.DYNAMIC ∈ b.tags)

/-- Embeds `PhysicsObject.bounds()`: `((x, x + width), (y, y + height))`. -/
def Body.bounds (b : Body) : Bounds :=
  ((b.x, b.x + b.width), (b.y, b.y + b.height))

/-- Embeds `PhysicsObject.move(x, y)`: `self.x += x; self.y += y`. -/
def Body.move (b : Body) (v : ℤ × ℤ) : Body :=
  { b with x := b.x + v.1, y := b.y + v.2 }

/-- One body `update()`: `Platform.update` is `pass`; `Player.update`
is `playerUpdate` acting on the body position and stored velocity. -/
def bodyUpdate (k : PInput) (b : Body) : Body :=
  match b.kind with
  | .platformK => b
  | .playerK vx vy =>
      let s := playerUpdate k { x := b.x, y := b.y, vx := vx, vy := vy }
      { b with x := s.x, y := s.y, kind := .playerK s.vx s.vy }

/-- One step of the inner loop of `PhysicsEngine._collision_update`: the
dynamic body at index `di` is resolved against the body at index `oi`
(skipped when their ids coincide, `obj.id == dyn_obj.id`), reading the
dynamic body current, already-moved position. -/
def innerStep (di : ℕ) (w : List Body) (oi : ℕ) : List Body :=
  match w[di]?, w[oi]? with
  | some d, some o =>
      if o.id = d.id then w
      else w.set di (d.move (AABB_vector_compact d.bounds o.bounds))
  | _, _ => w

/-- The inner loop `for obj in self.objects` for one dynamic body: the
membership and order of `objects` never change, so it is a fold over the
positions of the list. -/
def resolveDyn (w : List Body) (di : ℕ) : List Body :=
  (List.range w.length).foldl (innerStep di) w

/-- The outer outer-loop filtered list
`[obj for obj in self.objects if Tag.DYNAMIC in obj.tags]`, as positions:
it is computed once, before any resolution, and holds references whose
membership and order are fixed. -/
def dynIndices (w : List Body) : List ℕ :=
  (List.range w.length).filter (fun i => (w[i]?.map Body.isDynamic).getD false)

/-- Embeds `PhysicsEngine._collision_update()`: one non-iterative pass resolving
each dynamic body, in registration order, against every other body. -/
def collisionUpdate (w : List Body) : List Body :=
  (dynIndices w).foldl resolveDyn w

/-- Embeds `PhysicsEngine.update()`: call `update()` on every body in
registration order, then run the collision pass. -/
def engineUpdate (k : PInput) (w : List Body) : List Body :=
  collisionUpdate (w.map (bodyUpdate k))


/-! Demo configurations used by concrete theorems -/

/-- The input snapshot with no key pressed. -/
def demoNoInput : PInput := { space := false, left := false, right := false }

/-- A `Player(0, 0, 10, 10)` with its initial zero velocity, id 0. -/
def demoPlayer : Body :=
  { id := 0, x := 0, y := 0, width := 10, height := 10, kind := .playerK 0 0 }

/-- A `Platform(8, 3, 10, 10)`, id 1. -/
def demoPlatformA : Body :=
  { id := 1, x := 8, y := 3, width := 10, height := 10, kind := .platformK }

/-- A `Platform(-5, 3, 6, 10)`, id 2. -/
def demoPlatformB : Body :=
  { id := 2, x := -5, y := 3, width := 6, height := 10, kind := .platformK }

/-- A world where the player overlaps exactly one static platform. -/
def demoWorldOne : List Body := [demoPlayer, demoPlatformA]

/-- A world where the player overlaps two static platforms at once. -/
def demoWorldTwo : List Body := [demoPlayer, demoPlatformA, demoPlatformB]

/-! Claims about the AABB geometry -/

/-- Helper for C1: for all bounds, translating `bounds1` by
`AABB_vector_compact bounds1 bounds2` leaves no strict overlap with
`bounds2` — the chosen axis is pushed until the intervals exactly touch. -/
theorem sep_clears_strict_aux (b1 b2 : Bounds) :
    AABB_strict_overlap (translateBounds b1 (AABB_vector_compact b1 b2)) b2 = false := by
  rw [AABB_vector_compact_eq]
  unfold AABB_candX AABB_candY
  split_ifs <;>
    simp only [AABB_strict_overlap, translateBounds, decide_eq_false_iff_not] <;>
    omega

/-- C8: `AABB_is_colliding` is symmetric in its two arguments. -/
theorem AABB_is_colliding_symm (a b : Bounds) :
    AABB_is_colliding a b = AABB_is_colliding b a := by
  simp only [AABB_is_colliding, AABB_is_colliding_1d]
  congr 1 <;> rw [decide_eq_decide] <;> exact and_comm

/-- C6: intervals are closed: rectangles that touch exactly at an edge
(shared endpoint on one axis, closed overlap on the other) are reported
as colliding. -/
theorem touching_edges_collide (a b : Bounds)
    (hax : a.1.1 ≤ a.1.2) (hbx : b.1.1 ≤ b.1.2)
    (hay : a.2.1 ≤ a.2.2) (hby : b.2.1 ≤ b.2.2)
    (h : ((a.1.2 = b.1.1 ∨ b.1.2 = a.1.1) ∧ (a.2.1 ≤ b.2.2 ∧ b.2.1 ≤ a.2.2)) ∨
        ((a.2.2 = b.2.1 ∨ b.2.2 = a.2.1) ∧ (a.1.1 ≤ b.1.2 ∧ b.1.1 ≤ a.1.2))) :
    AABB_is_colliding a b = true := by
  simp only [AABB_is_colliding, AABB_is_colliding_1d, Bool.and_eq_true, decide_eq_true_eq]
  omega

/-- Witness for C6 at the spec example `a=((0,1),(0,1))`, `b=((1,2),(0,1))`. -/
theorem touching_edges_collide_witness :
    AABB_is_colliding ((0,1),(0,1)) ((1,2),(0,1)) = true :=
  touching_edges_collide ((0,1),(0,1)) ((1,2),(0,1))
    (by decide) (by decide) (by decide) (by decide) (by decide)

/-- C4: when the per-axis candidates have equal absolute magnitude and
the bounds collide, the result keeps the y-candidate and zeroes x: the
selection test `|x| < |y|` fails on a tie, so the `else` branch zeroes `x`. -/
theorem AABB_vector_compact_tie_keeps_dy (b1 b2 : Bounds)
    (hcol : (b1.1.1 ≤ b2.1.2 ∧ b2.1.1 ≤ b1.1.2) ∧ (b1.2.1 ≤ b2.2.2 ∧ b2.2.1 ≤ b1.2.2))
    (htie : |AABB_candX b1 b2| = |AABB_candY b1 b2|) :
    AABB_vector_compact b1 b2 = (0, AABB_candY b1 b2) := by
  rw [AABB_vector_compact_eq, if_pos hcol, if_neg]
  rw [htie]
  exact lt_irrefl _

/-- Witness for C4 at the spec tie case `a=((0,10),(0,10))`,
`b=((5,15),(5,15))`: the result is `(0, -5)` — first component zero,
second nonzero. -/
theorem AABB_vector_compact_tie_keeps_dy_witness :
    AABB_vector_compact ((0,10),(0,10)) ((5,15),(5,15)) =
      (0, AABB_candY ((0,10),(0,10)) ((5,15),(5,15))) ∧
    AABB_candY ((0,10),(0,10)) ((5,15),(5,15)) = -5 :=
  ⟨AABB_vector_compact_tie_keeps_dy ((0,10),(0,10)) ((5,15),(5,15)) (by decide) (by decide),
    by decide⟩

/-- C9: the compact and long MTV implementations agree on every pair of
bounds, including the non-colliding case where both return `(0, 0)`. -/
theorem AABB_vector_compact_eq_AABB_vector (b1 b2 : Bounds) :
    AABB_vector_compact b1 b2 = AABB_vector b1 b2 := by
  have hiff : ((b1.1.1 ≤ b2.1.2 ∧ b2.1.1 ≤ b1.1.2) ∧ (b1.2.1 ≤ b2.2.2 ∧ b2.2.1 ≤ b1.2.2))
      ↔ AABB_is_colliding b1 b2 = true := by
    simp [AABB_is_colliding, AABB_is_colliding_1d]
  rw [AABB_vector_compact_eq]
  cases hc : AABB_is_colliding b1 b2 with
  | false =>
      rw [if_neg (fun h => by simp [hiff.mp h] at hc)]
      simp [AABB_vector, hc]
  | true =>
      rw [if_pos (hiff.mpr hc)]
      simp only [AABB_vector, hc, if_true]
      rfl

/-- C1, counterexample: colliding bounds with positive extents where
translating `b1` by `AABB_vector_compact b1 b2` does *not* make
`AABB_is_colliding` false: the push lands `b1` exactly touching `b2`, and
touching counts as colliding under the closed-interval test. -/
theorem sep_vector_still_colliding_cex :
    AABB_is_colliding ((0,10),(0,10)) ((5,15),(0,10)) = true ∧
    AABB_vector_compact ((0,10),(0,10)) ((5,15),(0,10)) = (-5, 0) ∧
    AABB_is_colliding
      (translateBounds ((0,10),(0,10)) (AABB_vector_compact ((0,10),(0,10)) ((5,15),(0,10))))
      ((5,15),(0,10)) = true := by decide

/-- C1, amended: translating `b1` by `AABB_vector_compact b1 b2` always
clears *strict* overlap — the interiors of the rectangles are disjoint
afterwards; and in a world where the dynamic body overlaps exactly one
static body, one `engineUpdate` leaves the dynamic body exactly touching
the platform: no strict overlap remains, though `AABB_is_colliding` still
reports `true` on the shared edge. -/
theorem sep_vector_clears_strict_overlap :
    (∀ b1 b2 : Bounds,
      AABB_strict_overlap (translateBounds b1 (AABB_vector_compact b1 b2)) b2 = false) ∧
    AABB_strict_overlap demoPlayer.bounds demoPlatformA.bounds = true ∧
    ((engineUpdate demoNoInput demoWorldOne).map Body.bounds)[0]? = some ((-2,8),(3,13)) ∧
    AABB_strict_overlap ((-2,8),(3,13)) demoPlatformA.bounds = false ∧
    AABB_is_colliding ((-2,8),(3,13)) demoPlatformA.bounds = true :=
  ⟨sep_clears_strict_aux, by decide, by decide, by decide, by decide⟩

/-! Claims about the player update -/

/-- C2, code behaviour at the claimed input: starting from `vy = 0`
with no input held, two consecutive `Player.update` ticks each decrease
`vy` by exactly 3 (`0 → -3 → -6`), not by 3 and then 6 (`0 → -3 → -9`):
the gravity counter `t` is a fresh local initialised to 1 on every call,
so its increment is never observed and the decrement is constant. -/
theorem gravity_decrement_constant :
    (playerUpdate demoNoInput (playerInit 0 0)).vy = -3 ∧
    (playerUpdate demoNoInput (playerUpdate demoNoInput (playerInit 0 0))).vy = -6 ∧
    (playerUpdate demoNoInput (playerUpdate demoNoInput (playerInit 0 0))).vy ≠ -9 := by
  decide

/-- C3: from `vy = 0` with the jump input active, the `+30` impulse is
applied before gravity: after the jump step `vy = 30`, and after the whole
tick (impulse, then gravity `-3`) `vy = 27`. -/
theorem jump_impulse_before_gravity :
    (playerJump { space := true, left := false, right := false } (playerInit 0 0)).vy = 30 ∧
    (playerUpdate { space := true, left := false, right := false } (playerInit 0 0)).vy = 27 := by
  decide

/-! Claims about the engine collision pass -/

/-- C5: a world in which the dynamic body starts overlapping two static
platforms at once (strictly, on both), and after one single
`engineUpdate` it still strictly overlaps platform A: the resolution
against B pushed it back into A, and the single pass is not iterated to
convergence.  (The player body, updated by gravity, moves from `(0,0)` to
`(0,3)`; the pass then pushes it out of A to `x = -2` and out of B to
`x = 1`, leaving bounds `((1,11),(3,13))` overlapping A: `((8,18),(3,13))`.) -/
theorem two_static_overlap_persists :
    AABB_strict_overlap demoPlayer.bounds demoPlatformA.bounds = true ∧
    AABB_strict_overlap demoPlayer.bounds demoPlatformB.bounds = true ∧
    ((engineUpdate demoNoInput demoWorldTwo).map Body.bounds)[0]? = some ((1,11),(3,13)) ∧
    AABB_strict_overlap ((1,11),(3,13)) demoPlatformA.bounds = true ∧
    AABB_is_colliding ((1,11),(3,13)) demoPlatformA.bounds = true := by
  decide

/-- One inner-loop step never changes any list position other than the
dynamic body own index `di`. -/
theorem innerStep_getElem_ne (di oi i : ℕ) (w : List Body) (hne : i ≠ di) :
    (innerStep di w oi)[i]? = w[i]? := by
  unfold innerStep
  cases hd : w[di]? <;> cases ho : w[oi]? <;> simp only [hd, ho]
  split_ifs
  · rfl
  · exact List.getElem?_set_ne (Ne.symm hne)

/-- Resolving one dynamic body never changes any other list position. -/
theorem resolveDyn_getElem_ne (di i : ℕ) (w : List Body) (hne : i ≠ di) :
    (resolveDyn w di)[i]? = w[i]? := by
  unfold resolveDyn
  generalize List.range w.length = l
  induction l generalizing w with
  | nil => rfl
  | cons a l ih =>
      rw [List.foldl_cons, ih (innerStep di w a)]
      exact innerStep_getElem_ne di a i w hne

/-- Folding the resolution over a list of dynamic indices that avoids `i`
leaves position `i` unchanged. -/
theorem foldl_resolveDyn_getElem (ds : List ℕ) (w : List Body) (i : ℕ)
    (h : ∀ d ∈ ds, i ≠ d) :
    (ds.foldl resolveDyn w)[i]? = w[i]? := by
  induction ds generalizing w with
  | nil => rfl
  | cons d ds ih =>
      rw [List.foldl_cons, ih (resolveDyn w d) (fun x hx => h x (List.mem_cons_of_mem _ hx))]
      exact resolveDyn_getElem_ne d i w (h d (List.mem_cons_self _ _))

/-- A body that is not tagged `DYNAMIC` is a `Platform`. -/
theorem isDynamic_false_kind (b : Body) (h : b.isDynamic = false) :
    b.kind = BodyKind.platformK := by
  cases hk : b.kind with
  | platformK => rfl
  | playerK vx vy =>
      exfalso
      simp [Body.isDynamic, Body.tags, hk] at h

/-- Fact: `Platform.update` is `pass`: the per-body update leaves platforms
unchanged. -/
theorem bodyUpdate_platformK (k : PInput) (b : Body) (h : b.kind = BodyKind.platformK) :
    bodyUpdate k b = b := by
  simp [bodyUpdate, h]

/-- An index holding a non-dynamic body is not in the filtered dynamic list. -/
theorem not_mem_dynIndices (w : List Body) (i : ℕ)
    (h : (w[i]?.map Body.isDynamic).getD false = false) :
    ∀ d ∈ dynIndices w, i ≠ d := by
  intro d hd hde
  subst hde
  have hp := (List.mem_filter.mp hd).2
  rw [h] at hp
  exact absurd hp (by simp)

/-- C7: a body not tagged `DYNAMIC` is completely unchanged by one
`engineUpdate`: its own `update()` is `pass`, and the collision pass only
ever moves the dynamic bodies it iterates over. -/
theorem non_dynamic_bodies_unchanged (k : PInput) (w : List Body) (i : ℕ) (b : Body)
    (hb : w[i]? = some b) (hnd : b.isDynamic = false) :
    (engineUpdate k w)[i]? = some b := by
  have hkind := isDynamic_false_kind b hnd
  have hmap : (w.map (bodyUpdate k))[i]? = some b := by
    rw [List.getElem?_map, hb]
    simp [bodyUpdate_platformK k b hkind]
  have hside : ∀ d ∈ dynIndices (w.map (bodyUpdate k)), i ≠ d := by
    apply not_mem_dynIndices
    rw [hmap]
    simp [hnd]
  unfold engineUpdate collisionUpdate
  rw [foldl_resolveDyn_getElem _ _ _ hside, hmap]

/-- Witness for C7: in the two-platform demo world, platform A (a static
body) is byte-for-byte unchanged by the update. -/
theorem non_dynamic_bodies_unchanged_witness :
    (engineUpdate demoNoInput demoWorldTwo)[1]? = some demoPlatformA :=
  non_dynamic_bodies_unchanged demoNoInput demoWorldTwo 1 demoPlatformA
    (by decide) (by decide)


/-! The player velocity invariant -/

/-- The jump step preserves the `vy` invariant: it only fires when
`10 * vy < 1`, and then sets `vy` to exactly 30. -/
theorem playerJump_vy_inv (k : PInput) (s : PlayerPhys)
    (h : 3 ∣ s.vy ∧ -15 ≤ s.vy ∧ s.vy ≤ 30) :
    3 ∣ (playerJump k s).vy ∧ -15 ≤ (playerJump k s).vy ∧ (playerJump k s).vy ≤ 30 := by
  unfold playerJump
  split_ifs with h1 h2 <;> (try dsimp only) <;>
    first
      | exact h
      | (obtain ⟨-, h1⟩ := h1; omega)

/-- The jump step does not touch `vx`. -/
theorem playerJump_vx (k : PInput) (s : PlayerPhys) : (playerJump k s).vx = s.vx := by
  unfold playerJump; split_ifs <;> rfl

/-- The horizontal step does not touch `vy`. -/
theorem playerHoriz_vy (k : PInput) (s : PlayerPhys) : (playerHoriz k s).vy = s.vy := by
  unfold playerHoriz; dsimp only; split_ifs <;> rfl

/-- The gravity step does not touch `vx`. -/
theorem playerGravity_vx (s : PlayerPhys) : (playerGravity s).vx = s.vx := by
  unfold playerGravity; split_ifs <;> rfl

/-- The horizontal step preserves the `vx` invariant: each branch guard
(`vx > -10`, resp. `vx < 10`) keeps the `±3` step inside `[-12, 12]`,
using that `vx` is a multiple of 3. -/
theorem playerHoriz_vx_inv (k : PInput) (s : PlayerPhys)
    (h : 3 ∣ s.vx ∧ -12 ≤ s.vx ∧ s.vx ≤ 12) :
    3 ∣ (playerHoriz k s).vx ∧ -12 ≤ (playerHoriz k s).vx ∧ (playerHoriz k s).vx ≤ 12 := by
  unfold playerHoriz
  dsimp only
  split_ifs with h1 h2 h3 <;> (try dsimp only) <;>
    first
      | exact h
      | ((try obtain ⟨-, h1⟩ := h1); (try obtain ⟨-, h2⟩ := h2);
          (try obtain ⟨-, h3⟩ := h3); omega)

/-- The gravity step preserves the `vy` invariant: it only decrements while
`vy > -15`, and on multiples of 3 that floors exactly at `-15`. -/
theorem playerGravity_vy_inv (s : PlayerPhys)
    (h : 3 ∣ s.vy ∧ -15 ≤ s.vy ∧ s.vy ≤ 30) :
    3 ∣ (playerGravity s).vy ∧ -15 ≤ (playerGravity s).vy ∧ (playerGravity s).vy ≤ 30 := by
  unfold playerGravity
  split_ifs with h1 <;> (try dsimp only) <;> omega

/-- The inductive invariant on a player velocity: both components are
multiples of 3 (every change is `±3` or a reset to `0` or `+30`), `vx`
stays in `[-12, 12]` and `vy` stays in `[-15, 30]`. -/
def VelocityInv (s : PlayerPhys) : Prop :=
  (3 ∣ s.vx ∧ -12 ≤ s.vx ∧ s.vx ≤ 12) ∧ (3 ∣ s.vy ∧ -15 ≤ s.vy ∧ s.vy ≤ 30)

/-- Integration does not touch `vx`. -/
theorem playerIntegrate_vx (s : PlayerPhys) : (playerIntegrate s).vx = s.vx := rfl

/-- Integration does not touch `vy`. -/
theorem playerIntegrate_vy (s : PlayerPhys) : (playerIntegrate s).vy = s.vy := rfl

/-- One full `Player.update` preserves the velocity invariant, for every
input combination. -/
theorem velocityInv_step (k : PInput) (s : PlayerPhys) (h : VelocityInv s) :
    VelocityInv (playerUpdate k s) := by
  obtain ⟨hx, hy⟩ := h
  unfold playerUpdate
  constructor
  · rw [playerIntegrate_vx, playerGravity_vx]
    exact playerHoriz_vx_inv k _ (by rw [playerJump_vx]; exact hx)
  · rw [playerIntegrate_vy]
    exact playerGravity_vy_inv _ (by rw [playerHoriz_vy]; exact playerJump_vy_inv k s hy)

/-- The invariant holds after any finite run that starts inside it. -/
theorem playerRun_inv (ks : List PInput) (s : PlayerPhys) (h : VelocityInv s) :
    VelocityInv (playerRun ks s) := by
  induction ks generalizing s with
  | nil => exact h
  | cons k ks ih => exact ih (playerUpdate k s) (velocityInv_step k s h)

/-- C10: from a freshly constructed player (velocity `(0, 0)`) and any
finite input sequence, after every tick `-12 ≤ vx ≤ 12` and
`-15 ≤ vy ≤ 30`. -/
theorem player_velocity_bounded (x y : ℤ) (ks : List PInput) :
    -12 ≤ (playerRun ks (playerInit x y)).vx ∧ (playerRun ks (playerInit x y)).vx ≤ 12 ∧
    -15 ≤ (playerRun ks (playerInit x y)).vy ∧ (playerRun ks (playerInit x y)).vy ≤ 30 := by
  have h0 : VelocityInv (playerInit x y) := by
    constructor <;> exact ⟨⟨0, rfl⟩, by simp [playerInit], by simp [playerInit]⟩
  obtain ⟨⟨_, h1, h2⟩, _, h3, h4⟩ := playerRun_inv ks (playerInit x y) h0
  exact ⟨h1, h2, h3, h4⟩

/-- Witness for C8 at the touching pair from the spec examples. -/
theorem AABB_is_colliding_symm_witness :
    AABB_is_colliding ((0,1),(0,1)) ((1,2),(0,1)) =
      AABB_is_colliding ((1,2),(0,1)) ((0,1),(0,1)) :=
  AABB_is_colliding_symm ((0,1),(0,1)) ((1,2),(0,1))

/-- Witness for C9 at the tie case, where both implementations give `(0, -5)`. -/
theorem AABB_vector_compact_eq_AABB_vector_witness :
    AABB_vector_compact ((0,10),(0,10)) ((5,15),(5,15)) =
      AABB_vector ((0,10),(0,10)) ((5,15),(5,15)) :=
  AABB_vector_compact_eq_AABB_vector ((0,10),(0,10)) ((5,15),(5,15))

/-- Witness for C10 after one no-input tick from the origin. -/
theorem player_velocity_bounded_witness :
    -12 ≤ (playerRun [demoNoInput] (playerInit 0 0)).vx ∧
    (playerRun [demoNoInput] (playerInit 0 0)).vx ≤ 12 ∧
    -15 ≤ (playerRun [demoNoInput] (playerInit 0 0)).vy ∧
    (playerRun [demoNoInput] (playerInit 0 0)).vy ≤ 30 :=
  player_velocity_bounded 0 0 [demoNoInput]
